import Mathlib

/-
Verification of the client-side auth state controller in
src/frontend/src/contexts/AuthContext.jsx.

The controller is embedded as a trace-emitting state machine.  Each
operation of the source (fetchUserData, login, logout, register, and the
mount effect) is translated into a Lean function that returns the list of
observable effects it performs, in program order, together with its return
value.  The client state (the in-memory user and the durable localStorage
slot keyed "token") is obtained by folding the effect list over a state.
Backend responses are explicit parameters, since the source reads them
through fetch.
-/

namespace AuthContext

/-- A user record as returned by the backend in the body of /user/me.
The controller treats it as opaque; the concrete fields follow the
scenarios in the repository documentation. -/
structure UserRecord where
  id : Nat
  name : String
deriving DecidableEq

/-- Outcome of the fetch of GET /user/me as observed by fetchUserData:
either the request does not complete (fetch throws, carrying a message),
or a response arrives with res.ok false, or with res.ok true and a JSON
body whose user field is u (none models an absent field). -/
inductive MeResp where
  | netError (msg : String)
  | httpFail
  | httpOk (u : Option UserRecord)
deriving DecidableEq

/-- Outcome of the fetch of POST /login as observed by login: the request
does not complete, or res.ok is false and the JSON error body carries a
message field, or res.ok is true and the JSON body carries a token field. -/
inductive LoginResp where
  | netError (msg : String)
  | httpFail (message : String)
  | httpOk (token : String)
deriving DecidableEq

/-- Outcome of the fetch of POST /register as observed by register. -/
inductive RegisterResp where
  | netError (msg : String)
  | httpFail (message : String)
  | httpOk
deriving DecidableEq

/-- An observable effect performed by the controller, in program order:
a backend request, a localStorage write or delete, a React setUser call,
or a react-router navigation. -/
inductive Event where
  | request (path : String)
  | setItem (key value : String)
  | removeItem (key : String)
  | setUser (u : Option UserRecord)
  | navigate (dest : String)
deriving DecidableEq

/-- The client state the claims are about: the in-memory user of the
provider and the durable localStorage slot keyed "token". -/
structure ClientState where
  user : Option UserRecord
  storage : Option String
deriving DecidableEq

/-- How a single effect acts on the client state.  Requests and
navigations do not change it; setItem and removeItem act on the slot only
when the key is "token". -/
def applyEvent (s : ClientState) : Event → ClientState
  | .setItem k v => if k = "token" then { s with storage := some v } else s
  | .removeItem k => if k = "token" then { s with storage := none } else s
  | .setUser u => { s with user := u }
  | .navigate _ => s
  | .request _ => s

/-- State reached from s after performing a list of effects in order. -/
def run (s : ClientState) (es : List Event) : ClientState :=
  es.foldl applyEvent s

/-- The destination of the last navigation in an effect list, none when
no navigation occurred. -/
def lastNav (es : List Event) : Option String :=
  es.foldl (fun acc e => match e with | Event.navigate d => some d | _ => acc) none

/-- The backend paths requested by an effect list. -/
def requestsOf (es : List Event) : List String :=
  es.filterMap (fun e => match e with | Event.request p => some p | _ => none)

/-- fetchUserData (AuthContext.jsx lines 22 to 41): GET /user/me with the
bearer token.  If fetch throws, or res.ok is false (the code then throws
Error with text Failed to fetch user data.), the catch block calls
setUser(null) and rethrows, so the result is an error after a setUser none
effect.  On an ok response it calls setUser(data.user). -/
def fetchUserData (resp : MeResp) : List Event × Except String Unit :=
  match resp with
  | .netError msg => ([.request "/user/me", .setUser none], .error msg)
  | .httpFail => ([.request "/user/me", .setUser none],
      .error "Failed to fetch user data.")
  | .httpOk u => ([.request "/user/me", .setUser u], .ok ())

/-- login (AuthContext.jsx lines 83 to 111): POST /login with the
credentials.  If fetch throws or res.ok is false, the thrown error is
caught and its message returned.  On an ok response the code stores
data.token under the localStorage key "token", awaits
fetchUserData(data.token), then navigates to /profile; an error thrown by
fetchUserData is caught by the same catch and its message returned.
The me parameter gives the backend response to /user/me as a function of
the token presented. -/
def login (lr : LoginResp) (me : String → MeResp) : List Event × Option String :=
  match lr with
  | .netError msg => ([.request "/login"], some msg)
  | .httpFail m => ([.request "/login"], some m)
  | .httpOk t =>
      match fetchUserData (me t) with
      | (fes, .ok _) =>
          ([.request "/login", .setItem "token" t] ++ fes ++ [.navigate "/profile"],
            none)
      | (fes, .error msg) =>
          ([.request "/login", .setItem "token" t] ++ fes, some msg)

/-- logout (AuthContext.jsx lines 66 to 73): removes the localStorage key
"token", calls setUser(null), navigates to the root. -/
def logout : List Event :=
  [.removeItem "token", .setUser none, .navigate "/"]

/-- register (AuthContext.jsx lines 120 to 141): POST /register with the
user data.  If fetch throws or res.ok is false, the caught error message
is returned; on an ok response it navigates to /success. -/
def register (rr : RegisterResp) : List Event × Option String :=
  match rr with
  | .netError msg => ([.request "/register"], some msg)
  | .httpFail m => ([.request "/register"], some m)
  | .httpOk => ([.request "/register", .navigate "/success"], none)

/-- The provider state at mount time: user starts at null (useState(null))
and the durable slot holds whatever persisted. -/
def initialState (stored : Option String) : ClientState :=
  { user := none, storage := stored }

/-- The mount effect (AuthContext.jsx lines 45 to 58): read the stored
token; if present, await fetchUserData(token) inside a try/catch that
only logs a failure, so no error escapes; if absent, setUser(null). -/
def initMount (s : ClientState) (me : String → MeResp) : List Event :=
  match s.storage with
  | some t => (fetchUserData (me t)).1
  | none => [.setUser none]

/-- States of the controller reachable at quiescence: the state after the
mount effect has completed from some persisted slot, followed by any
sequence of completed login, logout and register calls. -/
inductive Reachable : ClientState → Prop where
  | start (stored : Option String) (me : String → MeResp) :
      Reachable (run (initialState stored) (initMount (initialState stored) me))
  | loginStep (s : ClientState) (lr : LoginResp) (me : String → MeResp) :
      Reachable s → Reachable (run s (login lr me).1)
  | logoutStep (s : ClientState) :
      Reachable s → Reachable (run s logout)
  | registerStep (s : ClientState) (rr : RegisterResp) :
      Reachable s → Reachable (run s (register rr).1)

/-- C2: when the backend answers /login with a non-success status whose
JSON body carries a message m, login returns the string m (it does not
throw: its return type carries the message), the user state remains null,
and no navigation occurs. -/
theorem C2_login_rejected_returns_message (m : String) (me : String → MeResp)
    (s : ClientState) (h : s.user = none) :
    (login (.httpFail m) me).2 = some m ∧
    (run s (login (.httpFail m) me).1).user = none ∧
    lastNav (login (.httpFail m) me).1 = none := by
  refine ⟨rfl, ?_, rfl⟩
  simpa [login, run, applyEvent] using h

theorem C2_login_rejected_returns_message_witness :
    ({ user := none, storage := none } : ClientState).user = none ∧
    ((login (.httpFail "invalid credentials") (fun _ => MeResp.httpFail)).2 =
        some "invalid credentials" ∧
      (run { user := none, storage := none }
          (login (.httpFail "invalid credentials") (fun _ => MeResp.httpFail)).1).user =
        none ∧
      lastNav (login (.httpFail "invalid credentials") (fun _ => MeResp.httpFail)).1 =
        none) :=
  ⟨rfl, C2_login_rejected_returns_message "invalid credentials"
    (fun _ => MeResp.httpFail) { user := none, storage := none } rfl⟩

/-- C3: when /login succeeds with token t and /user/me presented with t
succeeds with user u, afterwards the durable slot keyed token holds
exactly t, the user state equals u, the navigation target is /profile,
and login returns no message. -/
theorem C3_login_success (t : String) (u : UserRecord) (me : String → MeResp)
    (s : ClientState) (hme : me t = .httpOk (some u)) :
    (login (.httpOk t) me).2 = none ∧
    (run s (login (.httpOk t) me).1).storage = some t ∧
    (run s (login (.httpOk t) me).1).user = some u ∧
    lastNav (login (.httpOk t) me).1 = some "/profile" := by
  refine ⟨?_, ?_, ?_, ?_⟩ <;>
    simp [login, fetchUserData, hme, run, applyEvent, lastNav]

theorem C3_login_success_witness :
    (fun _ => MeResp.httpOk (some { id := 1, name := "Ann" })) "tok1" =
      MeResp.httpOk (some { id := 1, name := "Ann" }) ∧
    ((login (.httpOk "tok1") (fun _ => MeResp.httpOk (some { id := 1, name := "Ann" }))).2 =
        none ∧
      (run { user := none, storage := none }
          (login (.httpOk "tok1")
            (fun _ => MeResp.httpOk (some { id := 1, name := "Ann" }))).1).storage =
        some "tok1" ∧
      (run { user := none, storage := none }
          (login (.httpOk "tok1")
            (fun _ => MeResp.httpOk (some { id := 1, name := "Ann" }))).1).user =
        some { id := 1, name := "Ann" } ∧
      lastNav (login (.httpOk "tok1")
          (fun _ => MeResp.httpOk (some { id := 1, name := "Ann" }))).1 =
        some "/profile") :=
  ⟨rfl, C3_login_success "tok1" { id := 1, name := "Ann" }
    (fun _ => MeResp.httpOk (some { id := 1, name := "Ann" }))
    { user := none, storage := none } rfl⟩

/-- C4: every failing fetchUserData call (request did not complete, or
non-success response) yields an error result, leaves the user state null
regardless of the prior state, and the setUser none reset is the last
effect performed before the failure is propagated. -/
theorem C4_resolve_failure_resets_user (resp : MeResp) (s : ClientState)
    (h : resp = .httpFail ∨ ∃ msg, resp = .netError msg) :
    (∃ msg, (fetchUserData resp).2 = .error msg) ∧
    (run s (fetchUserData resp).1).user = none ∧
    ((fetchUserData resp).1).getLast? = some (.setUser none) := by
  rcases h with h | ⟨msg, h⟩ <;> subst h <;>
    exact ⟨⟨_, rfl⟩, by simp [fetchUserData, run, applyEvent], rfl⟩

theorem C4_resolve_failure_resets_user_witness :
    (MeResp.httpFail = MeResp.httpFail ∨ ∃ msg, MeResp.httpFail = MeResp.netError msg) ∧
    ((∃ msg, (fetchUserData .httpFail).2 = .error msg) ∧
      (run { user := some { id := 1, name := "Ann" }, storage := some "abc" }
          (fetchUserData .httpFail).1).user = none ∧
      ((fetchUserData .httpFail).1).getLast? = some (.setUser none)) :=
  ⟨Or.inl rfl, C4_resolve_failure_resets_user .httpFail
    { user := some { id := 1, name := "Ann" }, storage := some "abc" } (Or.inl rfl)⟩

/-- C5: at initialization, when no token is stored the state after the
mount effect is user = none (with the slot still empty); when a token is
stored and the startup resolution fails, the mount effect still completes
(initMount is a total function: the error is caught inside it) leaving
user = none. -/
theorem C5_initialization (t : String) (me : String → MeResp)
    (hfail : me t = .httpFail ∨ ∃ msg, me t = .netError msg) :
    run (initialState none) (initMount (initialState none) me) =
      { user := none, storage := none } ∧
    (run (initialState (some t)) (initMount (initialState (some t)) me)).user = none := by
  refine ⟨rfl, ?_⟩
  rcases hfail with h | ⟨msg, h⟩ <;>
    simp [initialState, initMount, fetchUserData, run, applyEvent, h]

theorem C5_initialization_witness :
    ((fun _ => MeResp.httpFail) "abc123" = MeResp.httpFail ∨
      ∃ msg, (fun _ => MeResp.httpFail) "abc123" = MeResp.netError msg) ∧
    (run (initialState none) (initMount (initialState none) (fun _ => MeResp.httpFail)) =
        { user := none, storage := none } ∧
      (run (initialState (some "abc123"))
          (initMount (initialState (some "abc123")) (fun _ => MeResp.httpFail))).user =
        none) :=
  ⟨Or.inl rfl, C5_initialization "abc123" (fun _ => MeResp.httpFail) (Or.inl rfl)⟩

/-- C6: within one login call that reaches the success path, the effect
trace places the durable write of the token strictly before the /user/me
resolution request, which is strictly before the navigation to /profile. -/
theorem C6_login_ordering (t : String) (u : Option UserRecord)
    (me : String → MeResp) (hme : me t = .httpOk u) :
    ∃ i j k : Nat, i < j ∧ j < k ∧
      ((login (.httpOk t) me).1)[i]? = some (.setItem "token" t) ∧
      ((login (.httpOk t) me).1)[j]? = some (.request "/user/me") ∧
      ((login (.httpOk t) me).1)[k]? = some (.navigate "/profile") := by
  refine ⟨1, 2, 4, by omega, by omega, ?_, ?_, ?_⟩ <;>
    simp [login, fetchUserData, hme]

theorem C6_login_ordering_witness :
    (fun _ => MeResp.httpOk (some { id := 1, name := "Ann" })) "tok1" =
      MeResp.httpOk (some { id := 1, name := "Ann" }) ∧
    (∃ i j k : Nat, i < j ∧ j < k ∧
      ((login (.httpOk "tok1")
          (fun _ => MeResp.httpOk (some { id := 1, name := "Ann" }))).1)[i]? =
        some (.setItem "token" "tok1") ∧
      ((login (.httpOk "tok1")
          (fun _ => MeResp.httpOk (some { id := 1, name := "Ann" }))).1)[j]? =
        some (.request "/user/me") ∧
      ((login (.httpOk "tok1")
          (fun _ => MeResp.httpOk (some { id := 1, name := "Ann" }))).1)[k]? =
        some (.navigate "/profile")) :=
  ⟨rfl, C6_login_ordering "tok1" (some { id := 1, name := "Ann" })
    (fun _ => MeResp.httpOk (some { id := 1, name := "Ann" })) rfl⟩

/-- C7: from any prior state, logout removes the durable token and sets
user to null, navigates to the root destination, and performs no backend
request; it is a total function with no failure result. -/
theorem C7_logout_clears_all (s : ClientState) :
    run s logout = { user := none, storage := none } ∧
    lastNav logout = some "/" ∧
    requestsOf logout = [] := by
  obtain ⟨u, st⟩ := s
  exact ⟨rfl, rfl, rfl⟩

/-- C8: logout is idempotent: from every starting state, running it twice
ends in the same state as running it once. -/
theorem C8_logout_idempotent (s : ClientState) :
    run (run s logout) logout = run s logout := by
  obtain ⟨u, st⟩ := s
  rfl

/-- C9: register leaves the durable slot and the user state unchanged for
every backend outcome; on success it returns no message and its only
effect beyond the backend request is the navigation to /success. -/
theorem C9_register_frame (rr : RegisterResp) (s : ClientState) :
    (run s (register rr).1).user = s.user ∧
    (run s (register rr).1).storage = s.storage ∧
    (register .httpOk).2 = none ∧
    (register .httpOk).1 = [.request "/register", .navigate "/success"] := by
  refine ⟨?_, ?_, rfl, rfl⟩ <;> cases rr <;> rfl

/-- C10: login and register return none exactly on the success path: a
message string is returned precisely when some step failed, so the caller
distinguishes success from failure by the returned value alone. -/
theorem C10_string_iff_failure :
    (∀ (lr : LoginResp) (me : String → MeResp),
      (login lr me).2 = none ↔
        ∃ t u, lr = .httpOk t ∧ me t = .httpOk u) ∧
    (∀ rr : RegisterResp, (register rr).2 = none ↔ rr = .httpOk) := by
  constructor
  · intro lr me
    cases lr with
    | netError msg => simp [login]
    | httpFail m => simp [login]
    | httpOk t =>
        cases hmt : me t <;>
          simp_all [login, fetchUserData]
  · intro rr
    cases rr <;> simp [register]

/-- C1 counterexample: a quiescent state with a token in durable storage
and user = none is reachable, refuting the claim that no reachable
quiescent state has a token in storage together with user = null.  The
witnessing execution stores the token abc123, mounts, and the startup
resolution gets a non-success response: fetchUserData resets user to null
but nothing removes the stored token. -/
theorem C1_counterexample :
    Reachable { user := none, storage := some "abc123" } ∧
    ({ user := none, storage := some "abc123" } : ClientState).storage = some "abc123" ∧
    ({ user := none, storage := some "abc123" } : ClientState).user = none := by
  refine ⟨?_, rfl, rfl⟩
  have h := Reachable.start (some "abc123") (fun _ => MeResp.httpFail)
  simpa [initialState, initMount, fetchUserData, run, applyEvent] using h

/-- C1 amended: a stored token does not guarantee a non-null user at
quiescence, because a failed resolution (at startup or inside login)
resets user to null without removing the stored token.  The divergence
that cannot occur is the converse: in every reachable quiescent state, a
non-null user implies a token is present in durable storage. -/
theorem C1_amended_user_implies_token (s : ClientState) (hs : Reachable s) :
    s.user.isSome = true → s.storage.isSome = true := by
  induction hs with
  | start stored me =>
      cases stored with
      | none => simp [initialState, initMount, run, applyEvent]
      | some t =>
          cases hmt : me t <;>
            simp [initialState, initMount, fetchUserData, run, applyEvent, hmt]
  | loginStep s lr me hs ih =>
      cases lr with
      | netError msg => simpa [login, run, applyEvent] using ih
      | httpFail m => simpa [login, run, applyEvent] using ih
      | httpOk t =>
          cases hmt : me t <;>
            simp [login, fetchUserData, run, applyEvent, hmt]
  | logoutStep s hs ih =>
      obtain ⟨u, st⟩ := s
      simp [logout, run, applyEvent]
  | registerStep s rr hs ih =>
      cases rr <;> simpa [register, run, applyEvent] using ih

theorem C1_amended_user_implies_token_witness :
    ({ user := some { id := 1, name := "Ann" }, storage := some "abc123" } :
        ClientState).user.isSome = true ∧
    ({ user := some { id := 1, name := "Ann" }, storage := some "abc123" } :
        ClientState).storage.isSome = true := by
  have hreach :
      Reachable { user := some { id := 1, name := "Ann" }, storage := some "abc123" } := by
    have h := Reachable.start (some "abc123")
      (fun _ => MeResp.httpOk (some { id := 1, name := "Ann" }))
    simpa [initialState, initMount, fetchUserData, run, applyEvent] using h
  exact ⟨rfl, C1_amended_user_implies_token _ hreach rfl⟩

end AuthContext
